import Mathlib

/-!
Shallow embedding of the credential/session core of the fata-backend
repository: the `UsersService` (src/src/users/users.service.ts) and the
`AuthService` (embedded in src/src/auth/auth.controller.spec.ts).

Modelling conventions:
* The relational store (Prisma) is a pair of lists (`users`, `sessions`)
  with explicit counters supplying generated ids and randomness.
* Times are natural numbers: epoch milliseconds for store timestamps,
  epoch seconds for JWT `iat`/`exp` fields (the jwt library truncates to
  seconds: `iat = nowMs / 1000`).
* `bcrypt.hash` is salted and one-way: a digest is modelled as the hashed
  plaintext together with the salt drawn from the store counter at hash
  time; `bcrypt.compare` is exact plaintext comparison against the digest.
* A JWT produced by `jwtService.signAsync` is deterministic in its payload
  (`sub`, `email`, `name`), the signing secret, and the second-granularity
  `iat`/`exp` claims: two signatures of the same payload with the same
  secret in the same second are the same string.  A token is therefore
  modelled as that tuple, with equality of tuples mirroring equality of
  token strings.
* Thrown Nest exceptions become `Except.error` values; since a thrown
  exception does not roll back earlier store writes, every operation
  returns the resulting store alongside the `Except`.
-/

namespace Fata

/-- A bcrypt digest: the hashed plaintext, the cost factor and the salt
drawn at hash time (distinct salts give distinct digests for the same
plaintext, as bcrypt does). -/
structure BcryptHash where
  plaintext : String
  rounds : Nat
  salt : Nat
deriving DecidableEq, Repr

/-- Model of `bcrypt.hash(plaintext, rounds)`; the salt comes from the
caller's randomness supply. -/
def bcryptHash (plaintext : String) (rounds : Nat) (salt : Nat) : BcryptHash :=
  { plaintext := plaintext, rounds := rounds, salt := salt }

/-- Model of `bcrypt.compare(password, digest)`. -/
def bcryptCompare (password : String) (h : BcryptHash) : Bool :=
  password == h.plaintext

/-- A signed JWT, modelled by the fields that determine the signed string:
payload (`sub`, `email`, `name`), signing secret, and the second-granularity
`iat` and `exp` claims added by the jwt library. -/
structure Jwt where
  sub : String
  email : String
  name : String
  secret : String
  iat : Nat
  exp : Nat
deriving DecidableEq, Repr

/-- `jwtService.signAsync(payload, { secret, expiresIn })` at a given
second: deterministic in all its inputs. -/
def jwtSign (sub email name secret : String) (expiresInSec : Nat) (nowSec : Nat) : Jwt :=
  { sub := sub, email := email, name := name, secret := secret,
    iat := nowSec, exp := nowSec + expiresInSec }

/-- A row of the `users` table (Prisma model `User`; `createdAt`/`updatedAt`
are not modelled, no specified behaviour reads them). -/
structure User where
  id : String
  email : String
  passwordHash : BcryptHash
  name : String
  emailVerified : Bool
  emailVerificationToken : Option String
  passwordResetToken : Option String
  passwordResetExpires : Option Nat
  failedLoginAttempts : Nat
  lockedUntil : Option Nat
deriving DecidableEq, Repr

/-- A row of the `sessions` table. -/
structure Session where
  id : Nat
  userId : String
  refreshToken : Jwt
  expiresAt : Nat
deriving DecidableEq, Repr

/-- An email job handed to the queue (external collaborator; only recorded).
`recipient` is the `to` field of the job. -/
structure EmailMsg where
  recipient : String
  template : String
  token : String
deriving DecidableEq, Repr

/-- The backing store plus the generators the services draw from:
`nextUserId` for created user ids, `nextSessionId` for session ids,
`nextSalt` for bcrypt salts, `nextRandom` for `randomBytes` opaque tokens. -/
structure DB where
  users : List User
  sessions : List Session
  nextUserId : Nat
  nextSessionId : Nat
  nextSalt : Nat
  nextRandom : Nat
  outbox : List EmailMsg
deriving DecidableEq, Repr

/-- The externally configured policy parameters read via `ConfigService`.
`lockTimeMinutes` is `parseInt(LOCK_TIME)`, `passwordResetExpiryHours` is
`parseInt(PASSWORD_RESET_EXPIRY)`; the jwt lifetimes carry both the
pass-through string (`JWT_EXPIRATION`) and the seconds value the jwt
library derives from it. -/
structure Config where
  bcryptRounds : Nat
  maxLoginAttempts : Nat
  lockTimeMinutes : Nat
  jwtSecret : String
  jwtRefreshSecret : String
  jwtExpiration : String
  jwtExpirationSec : Nat
  jwtRefreshExpirationSec : Nat
  passwordResetExpiryHours : Nat
deriving DecidableEq, Repr

/-- `email.toLowerCase()`: character-wise lowercasing (structural over the
character list, unlike `String.toLower`, so that concrete executions
reduce). -/
def strLower (s : String) : String := String.mk (s.data.map Char.toLower)

/-- The Nest HTTP exceptions thrown by the auth/users services. -/
inductive AppError where
  | conflict (msg : String)
  | unauthorized (msg : String)
  | forbidden (msg : String)
  | badRequest (msg : String)
  | notFound (msg : String)
  | internal (msg : String)
deriving DecidableEq, Repr

/-- The sanitized user object returned by register/login responses: the
source builds it field by field (`{ id, email, name, emailVerified }`). -/
structure SanitizedUser where
  id : String
  email : String
  name : String
  emailVerified : Bool
deriving DecidableEq, Repr

/-- Projection used by the register/login responses. -/
def sanitizeUser (u : User) : SanitizedUser :=
  { id := u.id, email := u.email, name := u.name, emailVerified := u.emailVerified }

/-- The token bundle produced by `AuthService.generateTokens`. -/
structure TokenPair where
  accessToken : Jwt
  refreshToken : Jwt
  tokenType : String
  expiresIn : String
deriving DecidableEq, Repr

/-- Response of `AuthService.register`. -/
structure RegisterResult where
  user : SanitizedUser
  accessToken : Jwt
  refreshToken : Jwt
  tokenType : String
  expiresIn : String
  message : String
deriving DecidableEq, Repr

/-- Response of `AuthService.login`. -/
structure AuthResult where
  user : SanitizedUser
  accessToken : Jwt
  refreshToken : Jwt
  tokenType : String
  expiresIn : String
deriving DecidableEq, Repr

/-- A `{ message: ... }` response body. -/
structure MsgResult where
  message : String
deriving DecidableEq, Repr

/-- `prisma.user.update({ where: p, data: f })`: updates the matching rows,
or reports that no row matched (Prisma throws in that case; callers
translate the throw). -/
def updateWhere (db : DB) (p : User → Bool) (f : User → User) : Option DB :=
  if db.users.any p then
    some { db with users := db.users.map (fun u => if p u then f u else u) }
  else none

/-! ## UsersService (src/src/users/users.service.ts) -/

/-- `UsersService.findByEmail`: `findUnique({ where: { email: email.toLowerCase() } })`. -/
def findByEmail (db : DB) (email : String) : Option User :=
  db.users.find? (fun u => u.email == strLower email)

/-- `UsersService.findById`. -/
def findById (db : DB) (id : String) : Option User :=
  db.users.find? (fun u => u.id == id)

/-- The store-level error raised by a uniqueness constraint violation
(Prisma `P2002`); it is not a Nest `ConflictException`. -/
inductive StoreError where
  | uniqueViolation
deriving DecidableEq, Repr

/-- `prisma.user.create` inside `UsersService.create`: the store enforces
the uniqueness constraint on `email` and raises `StoreError` on violation.
The row is created with `emailVerified = false` and the given hash. -/
def prismaUserCreate (db : DB) (email : String) (ph : BcryptHash) (name : String) :
    Except StoreError (User × DB) :=
  if db.users.any (fun u => u.email == email) then
    .error .uniqueViolation
  else
    let user : User :=
      { id := "user-" ++ toString db.nextUserId, email := email, passwordHash := ph,
        name := name, emailVerified := false, emailVerificationToken := none,
        passwordResetToken := none, passwordResetExpires := none,
        failedLoginAttempts := 0, lockedUntil := none }
    .ok (user, { db with users := db.users ++ [user], nextUserId := db.nextUserId + 1 })

/-- Input of `UsersService.create` / `AuthService.register`. -/
structure CreateUserData where
  email : String
  password : String
  name : String
deriving DecidableEq, Repr

/-- The pre-insert duplicate check of `UsersService.create` (its first
statement: `findByEmail` then `ConflictException`). -/
def usersCreateCheck (db : DB) (email : String) : Option AppError :=
  match findByEmail db email with
  | some _ => some (.conflict "User with this email already exists")
  | none => none

/-- The hash-and-insert phase of `UsersService.create`; the surrounding
`catch` rethrows `ConflictException` and wraps everything else — including
the store's uniqueness violation — into `InternalServerErrorException`. -/
def usersCreateInsert (cfg : Config) (db : DB) (data : CreateUserData) :
    Except AppError (User × DB) :=
  let h := bcryptHash data.password cfg.bcryptRounds db.nextSalt
  let db1 := { db with nextSalt := db.nextSalt + 1 }
  match prismaUserCreate db1 (strLower data.email) h data.name with
  | .error _ => .error (.internal "Failed to create user")
  | .ok r => .ok r

/-- `UsersService.create`: pre-insert duplicate check, then hash and insert. -/
def usersCreate (cfg : Config) (db : DB) (data : CreateUserData) :
    Except AppError (User × DB) :=
  match usersCreateCheck db data.email with
  | some e => .error e
  | none => usersCreateInsert cfg db data

/-- `UsersService.updatePassword`: re-hash, store, clear both reset fields. -/
def updatePassword (cfg : Config) (db : DB) (id : String) (newPassword : String) :
    Except AppError DB :=
  let h := bcryptHash newPassword cfg.bcryptRounds db.nextSalt
  let db1 := { db with nextSalt := db.nextSalt + 1 }
  match updateWhere db1 (fun u => u.id == id)
      (fun u => { u with passwordHash := h, passwordResetToken := none,
                         passwordResetExpires := none }) with
  | some db2 => .ok db2
  | none => .error (.internal "Failed to update password")

/-- `UsersService.updateRefreshToken`: with a token, creates a session row
whose expiry is the hardcoded `now + 30 days` (`expiresAt.setDate(getDate() + 30)`),
subject to the store's uniqueness constraint on `refreshToken`; with `null`,
deletes every session of the user. -/
def updateRefreshToken (db : DB) (userId : String) (tok : Option Jwt) (nowMs : Nat) :
    Except AppError DB :=
  match tok with
  | some t =>
    if db.sessions.any (fun s => decide (s.refreshToken = t)) then
      .error (.internal "Failed to update refresh token")
    else
      .ok { db with
        sessions := db.sessions ++
          [{ id := db.nextSessionId, userId := userId, refreshToken := t,
             expiresAt := nowMs + 30 * 24 * 60 * 60 * 1000 }],
        nextSessionId := db.nextSessionId + 1 }
  | none => .ok { db with sessions := db.sessions.filter (fun s => s.userId != userId) }

/-- `UsersService.setEmailVerified`: sets the flag and clears the token. -/
def setEmailVerified (db : DB) (id : String) (verified : Bool) : Except AppError DB :=
  match updateWhere db (fun u => u.id == id)
      (fun u => { u with emailVerified := verified, emailVerificationToken := none }) with
  | some db2 => .ok db2
  | none => .error (.internal "Failed to update email verification status")

/-- `UsersService.setEmailVerificationToken`. -/
def setEmailVerificationToken (db : DB) (id : String) (token : String) :
    Except AppError DB :=
  match updateWhere db (fun u => u.id == id)
      (fun u => { u with emailVerificationToken := some token }) with
  | some db2 => .ok db2
  | none => .error (.internal "Failed to set email verification token")

/-- `UsersService.setPasswordResetToken`. -/
def setPasswordResetToken (db : DB) (id : String) (token : String) (expiresAt : Nat) :
    Except AppError DB :=
  match updateWhere db (fun u => u.id == id)
      (fun u => { u with passwordResetToken := some token,
                         passwordResetExpires := some expiresAt }) with
  | some db2 => .ok db2
  | none => .error (.internal "Failed to set password reset token")

/-- `UsersService.findByPasswordResetToken`: `findFirst` with the exact
token and `passwordResetExpires > now` (a null expiry never matches). -/
def findByPasswordResetToken (db : DB) (token : String) (nowMs : Nat) : Option User :=
  db.users.find? (fun u =>
    u.passwordResetToken == some token &&
      match u.passwordResetExpires with
      | some e => decide (nowMs < e)
      | none => false)

/-- `UsersService.findByEmailVerificationToken`: `findFirst` on the exact
token, with no expiry condition. -/
def findByEmailVerificationToken (db : DB) (token : String) : Option User :=
  db.users.find? (fun u => u.emailVerificationToken == some token)

/-- `UsersService.incrementLoginAttempts`: a no-op when the email matches
no user; otherwise bumps the counter and sets `lockedUntil = now + LOCK_TIME`
exactly when the new counter reaches `MAX_LOGIN_ATTEMPTS` (and writes
`lockedUntil = null` otherwise). -/
def incrementLoginAttempts (cfg : Config) (db : DB) (email : String) (nowMs : Nat) :
    Except AppError DB :=
  match findByEmail db email with
  | none => .ok db
  | some user =>
    let attempts := user.failedLoginAttempts + 1
    let lockedUntil : Option Nat :=
      if cfg.maxLoginAttempts ≤ attempts then
        some (nowMs + cfg.lockTimeMinutes * 60 * 1000)
      else none
    match updateWhere db (fun u => u.email == strLower email)
        (fun u => { u with failedLoginAttempts := attempts, lockedUntil := lockedUntil }) with
    | some db2 => .ok db2
    | none => .error (.internal "Failed to update login attempts")

/-- `UsersService.resetLoginAttempts`: zero the counter, clear the lock. -/
def resetLoginAttempts (db : DB) (email : String) : Except AppError DB :=
  match updateWhere db (fun u => u.email == strLower email)
      (fun u => { u with failedLoginAttempts := 0, lockedUntil := none }) with
  | some db2 => .ok db2
  | none => .error (.internal "Failed to reset login attempts")

/-- `UsersService.isAccountLocked`: locked when `lockedUntil` is in the
future; an expired lock is cleared (counter reset) on the way. -/
def isAccountLocked (db : DB) (email : String) (nowMs : Nat) :
    Except AppError (Bool × DB) :=
  match findByEmail db email with
  | none => .ok (false, db)
  | some user =>
    match user.lockedUntil with
    | some l =>
      if nowMs < l then .ok (true, db)
      else
        match resetLoginAttempts db email with
        | .ok db2 => .ok (false, db2)
        | .error e => .error e
    | none => .ok (false, db)

/-! ## AuthService (embedded in src/src/auth/auth.controller.spec.ts) -/

/-- `AuthService.generateToken`: `randomBytes(32).toString(hex)`, modelled
by the randomness counter of the store. -/
def generateOpaqueToken (db : DB) : String × DB :=
  ("rand-" ++ toString db.nextRandom, { db with nextRandom := db.nextRandom + 1 })

/-- `AuthService.generateTokens`: signs the access and refresh JWTs over
the same payload with the two configured secrets and lifetimes. -/
def generateTokens (cfg : Config) (userId email name : String) (nowSec : Nat) : TokenPair :=
  { accessToken := jwtSign userId email name cfg.jwtSecret cfg.jwtExpirationSec nowSec
  , refreshToken := jwtSign userId email name cfg.jwtRefreshSecret cfg.jwtRefreshExpirationSec nowSec
  , tokenType := "Bearer"
  , expiresIn := cfg.jwtExpiration }

/-- `AuthService.register`: duplicate check, user creation, verification
token, verification email, token pair, session. -/
def register (cfg : Config) (db : DB) (dto : CreateUserData) (nowMs : Nat) :
    Except AppError RegisterResult × DB :=
  match findByEmail db dto.email with
  | some _ => (.error (.conflict "User with this email already exists"), db)
  | none =>
    match usersCreate cfg db dto with
    | .error e => (.error e, db)
    | .ok (user, db1) =>
      let vt := generateOpaqueToken db1
      match setEmailVerificationToken vt.2 user.id vt.1 with
      | .error e => (.error e, vt.2)
      | .ok db3 =>
        let db4 := { db3 with outbox := db3.outbox ++
          [{ recipient := user.email, template := "verification", token := vt.1 }] }
        let tokens := generateTokens cfg user.id user.email user.name (nowMs / 1000)
        match updateRefreshToken db4 user.id (some tokens.refreshToken) nowMs with
        | .error e => (.error e, db4)
        | .ok db5 =>
          (.ok { user := sanitizeUser user,
                 accessToken := tokens.accessToken, refreshToken := tokens.refreshToken,
                 tokenType := tokens.tokenType, expiresIn := tokens.expiresIn,
                 message := "Registration successful. Please check your email to verify your account." },
           db5)

/-- `AuthService.login`: lock check, user lookup, password check (both
failures increment the counter and throw the same `UnauthorizedException`),
counter reset, email-verification check, token pair, session. -/
def login (cfg : Config) (db : DB) (email password : String) (nowMs : Nat) :
    Except AppError AuthResult × DB :=
  match isAccountLocked db email nowMs with
  | .error e => (.error e, db)
  | .ok (locked, db1) =>
    if locked then
      (.error (.forbidden "Account is locked due to multiple failed login attempts. Please try again later."), db1)
    else
      match findByEmail db1 email with
      | none =>
        match incrementLoginAttempts cfg db1 email nowMs with
        | .error e => (.error e, db1)
        | .ok db2 => (.error (.unauthorized "Invalid credentials"), db2)
      | some user =>
        if bcryptCompare password user.passwordHash then
          match resetLoginAttempts db1 email with
          | .error e => (.error e, db1)
          | .ok db2 =>
            if user.emailVerified then
              let tokens := generateTokens cfg user.id user.email user.name (nowMs / 1000)
              match updateRefreshToken db2 user.id (some tokens.refreshToken) nowMs with
              | .error e => (.error e, db2)
              | .ok db3 =>
                (.ok { user := sanitizeUser user,
                       accessToken := tokens.accessToken, refreshToken := tokens.refreshToken,
                       tokenType := tokens.tokenType, expiresIn := tokens.expiresIn }, db3)
            else
              (.error (.forbidden "Please verify your email before logging in"), db2)
        else
          match incrementLoginAttempts cfg db1 email nowMs with
          | .error e => (.error e, db1)
          | .ok db2 => (.error (.unauthorized "Invalid credentials"), db2)

/-- `AuthService.logout`: removes every session of the user. -/
def logout (db : DB) (userId : String) : Except AppError MsgResult × DB :=
  match updateRefreshToken db userId none 0 with
  | .error e => (.error e, db)
  | .ok db1 => (.ok { message := "Logged out successfully" }, db1)

/-- `AuthService.validateRefreshToken`: `session.findFirst` on the user id,
the exact refresh token, and `expiresAt > now`. -/
def validateRefreshToken (db : DB) (userId : String) (tok : Jwt) (nowMs : Nat) :
    Option Session :=
  db.sessions.find? (fun s =>
    s.userId == userId && (decide (s.refreshToken = tok) && decide (nowMs < s.expiresAt)))

/-- `AuthService.refreshTokens`: user lookup, session validation, fresh
token pair, delete of the matched session, creation of the new one. -/
def refreshTokens (cfg : Config) (db : DB) (userId : String) (tok : Jwt) (nowMs : Nat) :
    Except AppError TokenPair × DB :=
  match findById db userId with
  | none => (.error (.forbidden "Access denied"), db)
  | some user =>
    match validateRefreshToken db userId tok nowMs with
    | none => (.error (.forbidden "Invalid refresh token"), db)
    | some session =>
      let tokens := generateTokens cfg user.id user.email user.name (nowMs / 1000)
      let db1 := { db with sessions := db.sessions.filter (fun s => s.id != session.id) }
      match updateRefreshToken db1 user.id (some tokens.refreshToken) nowMs with
      | .error e => (.error e, db1)
      | .ok db2 => (.ok tokens, db2)

/-- `AuthService.verifyEmail`: token lookup (no expiry), idempotent-success
when the matched user is already verified, otherwise mark verified and
clear the token. -/
def verifyEmail (db : DB) (token : String) : Except AppError MsgResult × DB :=
  match findByEmailVerificationToken db token with
  | none => (.error (.badRequest "Invalid or expired verification token"), db)
  | some user =>
    if user.emailVerified then
      (.ok { message := "Email already verified" }, db)
    else
      match setEmailVerified db user.id true with
      | .error e => (.error e, db)
      | .ok db1 => (.ok { message := "Email verified successfully" }, db1)

/-- `AuthService.forgotPassword`: the same generic message whether or not
the email exists; for an existing user, sets a reset token expiring
`PASSWORD_RESET_EXPIRY` hours from now and enqueues the reset email. -/
def forgotPassword (cfg : Config) (db : DB) (email : String) (nowMs : Nat) :
    Except AppError MsgResult × DB :=
  match findByEmail db email with
  | none =>
    (.ok { message := "If an account exists with this email, a password reset link has been sent." }, db)
  | some user =>
    let rt := generateOpaqueToken db
    let expiresAt := nowMs + cfg.passwordResetExpiryHours * 60 * 60 * 1000
    match setPasswordResetToken rt.2 user.id rt.1 expiresAt with
    | .error e => (.error e, rt.2)
    | .ok db1 =>
      let db2 := { db1 with outbox := db1.outbox ++
        [{ recipient := user.email, template := "password-reset", token := rt.1 }] }
      (.ok { message := "If an account exists with this email, a password reset link has been sent." }, db2)

/-- `AuthService.resetPassword`: lookup by exact token with a live expiry,
then `updatePassword` (which clears both reset fields). -/
def resetPassword (cfg : Config) (db : DB) (token newPassword : String) (nowMs : Nat) :
    Except AppError MsgResult × DB :=
  match findByPasswordResetToken db token nowMs with
  | none => (.error (.badRequest "Invalid or expired reset token"), db)
  | some user =>
    match updatePassword cfg db user.id newPassword with
    | .error e => (.error e, db)
    | .ok db1 => (.ok { message := "Password reset successfully" }, db1)

/-- Interleaved execution of two concurrent `register` calls in which both
requests pass the application-level duplicate checks (the controller is
stateless, so both `findByEmail` pre-checks can read the same store
snapshot) before either insert runs; the inserts then hit the store in
order.  Built from the same phase functions as the sequential `register`. -/
def registerRace (cfg : Config) (db : DB) (d1 d2 : CreateUserData) :
    Except AppError User × Except AppError User × DB :=
  let c1 :=
    match findByEmail db d1.email with
    | some _ => some (AppError.conflict "User with this email already exists")
    | none => usersCreateCheck db d1.email
  let c2 :=
    match findByEmail db d2.email with
    | some _ => some (AppError.conflict "User with this email already exists")
    | none => usersCreateCheck db d2.email
  match c1 with
  | some e1 =>
    match c2 with
    | some e2 => (.error e1, .error e2, db)
    | none =>
      match usersCreateInsert cfg db d2 with
      | .error e2 => (.error e1, .error e2, db)
      | .ok (u2, db2) => (.error e1, .ok u2, db2)
  | none =>
    match usersCreateInsert cfg db d1 with
    | .error e1 =>
      match c2 with
      | some e2 => (.error e1, .error e2, db)
      | none =>
        match usersCreateInsert cfg db d2 with
        | .error e2 => (.error e1, .error e2, db)
        | .ok (u2, db2) => (.error e1, .ok u2, db2)
    | .ok (u1, db1) =>
      match c2 with
      | some e2 => (.ok u1, .error e2, db1)
      | none =>
        match usersCreateInsert cfg db1 d2 with
        | .error e2 => (.ok u1, .error e2, db1)
        | .ok (u2, db2) => (.ok u1, .ok u2, db2)

/-! ## Concrete test fixtures shared by witnesses and counterexamples -/

/-- A concrete configuration: the documented defaults
(`BCRYPT_ROUNDS=10`, `MAX_LOGIN_ATTEMPTS=5`, `LOCK_TIME=15m`,
`JWT_EXPIRATION=15m`, `JWT_REFRESH_EXPIRATION=30d`, `PASSWORD_RESET_EXPIRY=1h`). -/
def testCfg : Config :=
  { bcryptRounds := 10, maxLoginAttempts := 5, lockTimeMinutes := 15,
    jwtSecret := "access-secret", jwtRefreshSecret := "refresh-secret",
    jwtExpiration := "15m", jwtExpirationSec := 900,
    jwtRefreshExpirationSec := 2592000, passwordResetExpiryHours := 1 }

/-- An empty store. -/
def emptyDB : DB :=
  { users := [], sessions := [], nextUserId := 0, nextSessionId := 0,
    nextSalt := 0, nextRandom := 0, outbox := [] }

/-- Whether the account lock of `u` is active at `nowMs` (the condition of
the `isAccountLocked` / lock branch: `lockedUntil && lockedUntil > now`). -/
def currentlyLocked (u : User) (nowMs : Nat) : Bool :=
  match u.lockedUntil with
  | some l => decide (nowMs < l)
  | none => false

/-- The store after `n` consecutive `login` calls with password `pw` at
time `t` (each call's resulting store feeds the next call). -/
def wrongLogins (cfg : Config) (db : DB) (email pw : String) (t : Nat) : Nat → DB
  | 0 => db
  | n + 1 => (login cfg (wrongLogins cfg db email pw t n) email pw t).2

/-- The expected row state of a fresh account after `k` consecutive
wrong-password logins at time `t`: the counter climbs while below the
configured maximum, and from the maximum on the row is locked until
`t + LOCK_TIME`. -/
def lockStateUser (cfg : Config) (u : User) (t : Nat) (k : Nat) : User :=
  if k < cfg.maxLoginAttempts then
    { u with failedLoginAttempts := k, lockedUntil := none }
  else
    { u with failedLoginAttempts := cfg.maxLoginAttempts,
             lockedUntil := some (t + cfg.lockTimeMinutes * 60 * 1000) }

/-- A verified user fixture. -/
def aliceV : User :=
  { id := "u1", email := "alice@example.com", passwordHash := bcryptHash "Correct1!" 10 0,
    name := "Alice", emailVerified := true, emailVerificationToken := none,
    passwordResetToken := none, passwordResetExpires := none,
    failedLoginAttempts := 0, lockedUntil := none }

/-- An unverified user fixture still holding verification token `tok-v`. -/
def aliceU : User :=
  { aliceV with emailVerified := false, emailVerificationToken := some "tok-v" }

/-- An unverified user fixture whose account is currently locked after five
failures. -/
def lockedUser : User :=
  { aliceV with
    emailVerified := false, failedLoginAttempts := 5, lockedUntil := some 1000000 }

/-- A registration input fixture. -/
def dupDto : CreateUserData :=
  { email := "dup@example.com", password := "Password1!", name := "Dup" }

/-- The refresh JWT of `aliceV` signed at second 5 with the fixture config. -/
def aliceTok : Jwt :=
  jwtSign "u1" "alice@example.com" "Alice" "refresh-secret" 2592000 5

/-- A store holding `aliceV` with one live session for `aliceTok`. -/
def aliceSessionDB : DB :=
  { emptyDB with
    users := [aliceV],
    sessions := [{ id := 0, userId := "u1", refreshToken := aliceTok, expiresAt := 999999 }],
    nextSessionId := 1 }

/-- The expected store after rotating `aliceTok` at millisecond 7000. -/
def aliceRotatedDB : DB :=
  { aliceSessionDB with
    sessions :=
      [{ id := 1, userId := "u1",
         refreshToken := jwtSign "u1" "alice@example.com" "Alice" "refresh-secret" 2592000 7,
         expiresAt := 2592007000 }],
    nextSessionId := 2 }

/-- The expected stored row of registering `dupDto` against an empty store. -/
def dupUserRow : User :=
  { id := "user-0", email := "dup@example.com",
    passwordHash := bcryptHash "Password1!" 10 0, name := "Dup",
    emailVerified := false, emailVerificationToken := some "rand-0",
    passwordResetToken := none, passwordResetExpires := none,
    failedLoginAttempts := 0, lockedUntil := none }

/-- The expected store after registering `dupDto` against an empty store. -/
def dupRegisterDB : DB :=
  { users := [dupUserRow],
    sessions :=
      [{ id := 0, userId := "user-0",
         refreshToken := jwtSign "user-0" "dup@example.com" "Dup" "refresh-secret" 2592000 0,
         expiresAt := 2592000000 }],
    nextUserId := 1, nextSessionId := 1, nextSalt := 1, nextRandom := 1,
    outbox := [{ recipient := "dup@example.com", template := "verification",
                 token := "rand-0" }] }

/-- The expected response of registering `dupDto` against an empty store. -/
def dupRegisterRes : RegisterResult :=
  { user := { id := "user-0", email := "dup@example.com", name := "Dup",
              emailVerified := false },
    accessToken := jwtSign "user-0" "dup@example.com" "Dup" "access-secret" 900 0,
    refreshToken := jwtSign "user-0" "dup@example.com" "Dup" "refresh-secret" 2592000 0,
    tokenType := "Bearer", expiresIn := "15m",
    message := "Registration successful. Please check your email to verify your account." }

end Fata

deriving instance DecidableEq for Except

namespace Fata

/-! ## Proof support -/

/-- A row update whose data does not touch the fields the `where` clause
reads commutes with `find?` on that clause. -/
theorem find?_update_pred (l : List User) (p : User → Bool) (f : User → User)
    (hp : ∀ u, p (f u) = p u) :
    (l.map (fun v => if p v then f v else v)).find? p
      = (l.find? p).map (fun v => if p v then f v else v) := by
  rw [List.find?_map]
  have h : (p ∘ fun v => if p v then f v else v) = p := by
    funext v
    by_cases hv : p v
    · simp [Function.comp, hv, hp]
    · simp [Function.comp, hv]
  rw [h]

/-- After such an update, `find?` returns the updated matched row. -/
theorem find?_update_self (l : List User) (p : User → Bool) (f : User → User) (u : User)
    (hp : ∀ v, p (f v) = p v) (h : l.find? p = some u) :
    (l.map (fun v => if p v then f v else v)).find? p = some (f u) := by
  rw [find?_update_pred l p f hp, h]
  simp [List.find?_some h]

/-- `updateWhere` succeeds once a row matching the clause is known. -/
theorem updateWhere_of_mem (db : DB) (p : User → Bool) (f : User → User) (u : User)
    (hm : u ∈ db.users) (hu : p u = true) :
    updateWhere db p f
      = some { db with users := db.users.map (fun v => if p v then f v else v) } := by
  unfold updateWhere
  rw [if_pos (List.any_eq_true.mpr ⟨u, hm, hu⟩)]

/-- `updateWhere` succeeds on the row found by `find?`. -/
theorem updateWhere_of_find? (db : DB) (p : User → Bool) (f : User → User) (u : User)
    (h : db.users.find? p = some u) :
    updateWhere db p f
      = some { db with users := db.users.map (fun v => if p v then f v else v) } :=
  updateWhere_of_mem db p f u (List.mem_of_find?_eq_some h) (List.find?_some h)

/-- `resetLoginAttempts` on an email with a known row zeroes the counter
and clears the lock on every row of that email. -/
theorem resetLoginAttempts_found (db : DB) (email : String) (u : User)
    (h : findByEmail db email = some u) :
    resetLoginAttempts db email
      = .ok { db with users := db.users.map (fun v =>
          if v.email == strLower email then
            { v with failedLoginAttempts := 0, lockedUntil := none }
          else v) } := by
  unfold resetLoginAttempts
  rw [updateWhere_of_find? db _ _ u h]

/-- Looking the email up again after `resetLoginAttempts` finds the same
row with the counter and lock cleared. -/
theorem findByEmail_after_reset (db : DB) (email : String) (u : User)
    (h : findByEmail db email = some u) :
    findByEmail { db with users := db.users.map (fun v =>
        if v.email == strLower email then
          { v with failedLoginAttempts := 0, lockedUntil := none }
        else v) } email
      = some { u with failedLoginAttempts := 0, lockedUntil := none } := by
  unfold findByEmail at h ⊢
  exact find?_update_self _ _ _ u (fun v => rfl) h

/-- A successful `updateRefreshToken` never touches the `users` table. -/
theorem updateRefreshToken_ok_users (db : DB) (uid : String) (tok : Option Jwt)
    (nowMs : Nat) (db2 : DB)
    (h : updateRefreshToken db uid tok nowMs = .ok db2) : db2.users = db.users := by
  cases tok with
  | none =>
    simp only [updateRefreshToken] at h
    injection h with h
    subst h
    rfl
  | some t =>
    simp only [updateRefreshToken] at h
    split at h
    · simp at h
    · injection h with h
      subst h
      rfl

/-- A successful session-creating `updateRefreshToken` appends exactly the
new session row, with the hardcoded 30-day expiry. -/
theorem updateRefreshToken_ok_sessions (db : DB) (uid : String) (t : Jwt)
    (nowMs : Nat) (db2 : DB)
    (h : updateRefreshToken db uid (some t) nowMs = .ok db2) :
    db2.sessions = db.sessions ++
      [{ id := db.nextSessionId, userId := uid, refreshToken := t,
         expiresAt := nowMs + 30 * 24 * 60 * 60 * 1000 }] := by
  simp only [updateRefreshToken] at h
  split at h
  · simp at h
  · injection h with h
    subst h
    rfl

/-- A successful `setEmailVerificationToken` maps the token onto the rows
of that id and leaves the rest unchanged. -/
theorem setEmailVerificationToken_ok_users (db : DB) (id tok : String) (db2 : DB)
    (h : setEmailVerificationToken db id tok = .ok db2) :
    db2.users = db.users.map (fun v =>
      if v.id == id then { v with emailVerificationToken := some tok } else v) := by
  simp only [setEmailVerificationToken, updateWhere] at h
  split at h
  · rename_i x heq
    injection h with h
    subst h
    split at heq
    · injection heq with heq
      rw [← heq]
    · exact absurd heq (by simp)
  · simp at h

/-- A successful `UsersService.create` appends exactly the created row. -/
theorem usersCreate_ok_shape (cfg : Config) (db : DB) (data : CreateUserData)
    (user : User) (db1 : DB)
    (h : usersCreate cfg db data = .ok (user, db1)) :
    db1.users = db.users ++ [user] := by
  simp only [usersCreate, usersCreateCheck, usersCreateInsert, prismaUserCreate] at h
  split at h
  · simp at h
  · split at h
    · simp at h
    · rename_i r heq
      injection h with h
      rw [h] at heq
      split at heq
      · exact absurd heq (by simp)
      · injection heq with hq
        injection hq with hq1 hq2
        rw [← hq1, ← hq2]

/-- A wrong-password login on an unlocked account fails Unauthorized and
bumps the account row exactly as `incrementLoginAttempts` writes it. -/
theorem login_wrong_step (cfg : Config) (db : DB) (email pw : String) (t : Nat) (u : User)
    (hfind : findByEmail db email = some u)
    (hlock : u.lockedUntil = none)
    (hpw : bcryptCompare pw u.passwordHash = false) :
    (login cfg db email pw t).1 = .error (.unauthorized "Invalid credentials")
    ∧ findByEmail (login cfg db email pw t).2 email
        = some { u with
            failedLoginAttempts := u.failedLoginAttempts + 1,
            lockedUntil :=
              if cfg.maxLoginAttempts ≤ u.failedLoginAttempts + 1 then
                some (t + cfg.lockTimeMinutes * 60 * 1000)
              else none } := by
  have hupd := updateWhere_of_find? db (fun v => v.email == strLower email)
    (fun v => { v with
      failedLoginAttempts := u.failedLoginAttempts + 1,
      lockedUntil :=
        if cfg.maxLoginAttempts ≤ u.failedLoginAttempts + 1 then
          some (t + cfg.lockTimeMinutes * 60 * 1000)
        else none }) u hfind
  have hinc : incrementLoginAttempts cfg db email t
      = .ok { db with users := db.users.map (fun v =>
          if v.email == strLower email then
            { v with
              failedLoginAttempts := u.failedLoginAttempts + 1,
              lockedUntil :=
                if cfg.maxLoginAttempts ≤ u.failedLoginAttempts + 1 then
                  some (t + cfg.lockTimeMinutes * 60 * 1000)
                else none }
          else v) } := by
    unfold incrementLoginAttempts
    rw [hfind]
    simp only [hupd]
  have hrun : login cfg db email pw t
      = (.error (.unauthorized "Invalid credentials"),
         { db with users := db.users.map (fun v =>
            if v.email == strLower email then
              { v with
                failedLoginAttempts := u.failedLoginAttempts + 1,
                lockedUntil :=
                  if cfg.maxLoginAttempts ≤ u.failedLoginAttempts + 1 then
                    some (t + cfg.lockTimeMinutes * 60 * 1000)
                  else none }
            else v) }) := by
    simp [login, isAccountLocked, hfind, hlock, hpw, hinc]
  refine ⟨by rw [hrun], ?_⟩
  rw [hrun]
  exact find?_update_self _ _ _ u (fun v => rfl) hfind

/-- A login on a currently locked account fails Forbidden and leaves the
store untouched. -/
theorem login_locked_unchanged (cfg : Config) (db : DB) (email pw : String) (t : Nat)
    (u : User) (L : Nat)
    (hfind : findByEmail db email = some u)
    (hl : u.lockedUntil = some L) (hlt : t < L) :
    login cfg db email pw t
      = (.error (.forbidden "Account is locked due to multiple failed login attempts. Please try again later."), db) := by
  simp [login, isAccountLocked, hfind, hl, hlt]

/-- Row-state invariant of consecutive wrong-password logins on a fresh
unlocked account: after `k` calls the row is `lockStateUser cfg u t k`. -/
theorem wrongLogins_state (cfg : Config) (db : DB) (email pw : String) (t : Nat) (u : User)
    (hfind : findByEmail db email = some u)
    (h0 : u.failedLoginAttempts = 0)
    (hlock : u.lockedUntil = none)
    (hpw : bcryptCompare pw u.passwordHash = false)
    (hmax : 1 ≤ cfg.maxLoginAttempts)
    (hlockmin : 1 ≤ cfg.lockTimeMinutes) :
    ∀ k : Nat, findByEmail (wrongLogins cfg db email pw t k) email
      = some (lockStateUser cfg u t k) := by
  intro k
  induction k with
  | zero =>
    show findByEmail db email = some (lockStateUser cfg u t 0)
    rw [hfind, lockStateUser, if_pos (show 0 < cfg.maxLoginAttempts by omega)]
    have : ({ u with failedLoginAttempts := 0, lockedUntil := none } : User) = u := by
      rw [← h0, ← hlock]
    rw [this]
  | succ k ih =>
    by_cases hk : k < cfg.maxLoginAttempts
    · rw [lockStateUser, if_pos hk] at ih
      have hstep := (login_wrong_step cfg (wrongLogins cfg db email pw t k) email pw t
        { u with failedLoginAttempts := k, lockedUntil := none } ih rfl hpw).2
      show findByEmail (login cfg (wrongLogins cfg db email pw t k) email pw t).2 email = _
      rw [hstep, lockStateUser]
      by_cases hk1 : k + 1 < cfg.maxLoginAttempts
      · rw [if_pos hk1, if_neg (by omega : ¬ cfg.maxLoginAttempts ≤ k + 1)]
      · rw [if_neg hk1, if_pos (by omega : cfg.maxLoginAttempts ≤ k + 1)]
        have heq : cfg.maxLoginAttempts = k + 1 := by omega
        rw [heq]
    · rw [lockStateUser, if_neg hk] at ih
      have hstep := login_locked_unchanged cfg (wrongLogins cfg db email pw t k) email pw t
        { u with failedLoginAttempts := cfg.maxLoginAttempts,
                 lockedUntil := some (t + cfg.lockTimeMinutes * 60 * 1000) }
        (t + cfg.lockTimeMinutes * 60 * 1000) ih rfl (by omega)
      show findByEmail (login cfg (wrongLogins cfg db email pw t k) email pw t).2 email = _
      rw [hstep, lockStateUser, if_neg (by omega : ¬ k + 1 < cfg.maxLoginAttempts)]
      exact ih

/-- After the counter-reset map, every row carrying the (lowercased) email
has a zero counter and no lock. -/
theorem reset_map_prop (l : List User) (e : String) :
    ∀ v ∈ l.map (fun w =>
        if w.email == e then { w with failedLoginAttempts := 0, lockedUntil := none } else w),
      v.email = e → v.failedLoginAttempts = 0 ∧ v.lockedUntil = none := by
  intro v hv hve
  rcases List.mem_map.mp hv with ⟨w, hw, rfl⟩
  by_cases h : (w.email == e) = true
  · simp [h]
  · rw [if_neg h] at hve ⊢
    exact absurd (by simpa using hve) (by simpa using h)

/-! ## Counterexamples and code-bug evaluations (closed, concrete) -/

/-- C1 (counterexample): when the refresh happens in the same second in
which the presented refresh token was signed, the signed JWT coincides with
the presented token, so the call succeeds yet returns the very token it was
presented, and a second call presenting the same token succeeds as well
instead of failing with Forbidden. -/
theorem refresh_reuse_same_second_cex :
    (refreshTokens testCfg aliceSessionDB "u1" aliceTok 5000).1
        = Except.ok (generateTokens testCfg "u1" "alice@example.com" "Alice" 5)
    ∧ (generateTokens testCfg "u1" "alice@example.com" "Alice" 5).refreshToken = aliceTok
    ∧ (refreshTokens testCfg (refreshTokens testCfg aliceSessionDB "u1" aliceTok 5000).2
          "u1" aliceTok 5000).1
        = Except.ok (generateTokens testCfg "u1" "alice@example.com" "Alice" 5) := by
  decide

/-- C3 (counterexample): a successful verification clears
`emailVerificationToken`, so calling `verifyEmail` again with the very
token that just verified the user fails with BadRequest instead of
returning the "already verified" success. -/
theorem verify_email_reuse_cex :
    (verifyEmail { emptyDB with users := [aliceU] } "tok-v").1
        = Except.ok { message := "Email verified successfully" }
    ∧ (verifyEmail (verifyEmail { emptyDB with users := [aliceU] } "tok-v").2 "tok-v").1
        = Except.error (.badRequest "Invalid or expired verification token") := by
  decide

/-- C4 (code-bug evaluation): in the interleaving where both concurrent
registrations pass the application-level pre-checks before either insert,
exactly one insert succeeds, but the loser's store constraint violation is
translated to `InternalServerErrorException`, not to the Conflict error the
spec and the repository's own e2e test
(test/auth/register.e2e-spec.ts, "should handle concurrent registration
attempts", expecting 409) demand; the sequential duplicate still gets
Conflict. -/
theorem register_race_constraint_to_internal :
    (registerRace testCfg emptyDB dupDto dupDto).1
        = Except.ok
            { id := "user-0", email := "dup@example.com",
              passwordHash := bcryptHash "Password1!" 10 0, name := "Dup",
              emailVerified := false, emailVerificationToken := none,
              passwordResetToken := none, passwordResetExpires := none,
              failedLoginAttempts := 0, lockedUntil := none }
    ∧ (registerRace testCfg emptyDB dupDto dupDto).2.1
        = Except.error (.internal "Failed to create user")
    ∧ (registerRace testCfg emptyDB dupDto dupDto).2.1
        ≠ Except.error (.conflict "User with this email already exists")
    ∧ (register testCfg (register testCfg emptyDB dupDto 0).2 dupDto 0).1
        = Except.error (.conflict "User with this email already exists") := by
  decide

/-- C6: for every store, email and time, `forgotPassword` returns the same
generic confirmation body — in particular the response for an existing and
for a non-existing email is identical. -/
theorem forgot_password_uniform_response (cfg : Config) (db : DB) (email : String) (nowMs : Nat) :
    (forgotPassword cfg db email nowMs).1
      = Except.ok { message := "If an account exists with this email, a password reset link has been sent." } := by
  unfold forgotPassword
  cases h : findByEmail db email with
  | none => rfl
  | some u =>
    have hm : u ∈ db.users := List.mem_of_find?_eq_some h
    simp only [generateOpaqueToken]
    unfold setPasswordResetToken
    rw [updateWhere_of_mem { db with nextRandom := db.nextRandom + 1 } _ _ u hm (by simp)]

/-- C5: on an unlocked account, a login that fails because the email
matches no user and a login that fails because the password does not match
produce the same `UnauthorizedException` value; both paths run the
failure-counter increment, which leaves the store untouched when no user
row exists for the email. -/
theorem login_failure_uniform (cfg : Config)
    (db1 : DB) (email1 pw1 : String) (now1 : Nat)
    (db2 : DB) (email2 pw2 : String) (now2 : Nat) (u : User)
    (h1 : findByEmail db1 email1 = none)
    (h2 : findByEmail db2 email2 = some u)
    (hlock : u.lockedUntil = none)
    (hpw : bcryptCompare pw2 u.passwordHash = false) :
    login cfg db1 email1 pw1 now1 = (.error (.unauthorized "Invalid credentials"), db1)
    ∧ ∃ db2i, incrementLoginAttempts cfg db2 email2 now2 = .ok db2i
        ∧ login cfg db2 email2 pw2 now2 = (.error (.unauthorized "Invalid credentials"), db2i) := by
  constructor
  · simp [login, isAccountLocked, incrementLoginAttempts, h1]
  · have hinc : incrementLoginAttempts cfg db2 email2 now2
        = .ok { db2 with users := db2.users.map (fun v =>
            if v.email == strLower email2 then
              { v with failedLoginAttempts := u.failedLoginAttempts + 1,
                       lockedUntil :=
                         if cfg.maxLoginAttempts ≤ u.failedLoginAttempts + 1 then
                           some (now2 + cfg.lockTimeMinutes * 60 * 1000)
                         else none }
            else v) } := by
      have hupd := updateWhere_of_find? db2 (fun v => v.email == strLower email2)
        (fun v => { v with
          failedLoginAttempts := u.failedLoginAttempts + 1,
          lockedUntil :=
            if cfg.maxLoginAttempts ≤ u.failedLoginAttempts + 1 then
              some (now2 + cfg.lockTimeMinutes * 60 * 1000)
            else none }) u h2
      unfold incrementLoginAttempts
      rw [h2]
      simp only [hupd]
    refine ⟨_, hinc, ?_⟩
    simp [login, isAccountLocked, h2, hlock, hpw, hinc]

/-- C10 (counterexample): on a currently locked account, a login whose
password matches the stored hash while `emailVerified` is false does fail
with Forbidden, but the failure counter is not reset (it stays at 5) and
the lock is not cleared, because the lock check precedes everything else. -/
theorem login_locked_no_reset_cex :
    bcryptCompare "Correct1!" lockedUser.passwordHash = true
    ∧ lockedUser.emailVerified = false
    ∧ (login testCfg { emptyDB with users := [lockedUser] }
        "alice@example.com" "Correct1!" 0).1
        = Except.error (.forbidden "Account is locked due to multiple failed login attempts. Please try again later.")
    ∧ (login testCfg { emptyDB with users := [lockedUser] }
        "alice@example.com" "Correct1!" 0).2.users.map User.failedLoginAttempts = [5]
    ∧ (login testCfg { emptyDB with users := [lockedUser] }
        "alice@example.com" "Correct1!" 0).2.users.map User.lockedUntil = [some 1000000] := by
  decide

/-- C10 (amended): for every login call on an account that is not
currently locked, if the presented password matches the stored hash but
`emailVerified` is false, the call fails with Forbidden and nevertheless
every row of that email ends with `failedLoginAttempts = 0` and
`lockedUntil` cleared, the counter reset having run before the
email-verification check. -/
theorem login_reset_before_verify (cfg : Config) (db : DB) (email pw : String)
    (nowMs : Nat) (u : User)
    (hfind : findByEmail db email = some u)
    (hnl : currentlyLocked u nowMs = false)
    (hpw : bcryptCompare pw u.passwordHash = true)
    (hver : u.emailVerified = false) :
    (login cfg db email pw nowMs).1
      = .error (.forbidden "Please verify your email before logging in")
    ∧ ∀ v ∈ (login cfg db email pw nowMs).2.users,
        v.email = strLower email → v.failedLoginAttempts = 0 ∧ v.lockedUntil = none := by
  cases hl : u.lockedUntil with
  | none =>
    have hreset := resetLoginAttempts_found db email u hfind
    have hrun : login cfg db email pw nowMs
        = (.error (.forbidden "Please verify your email before logging in"),
           { db with users := db.users.map (fun v =>
              if v.email == strLower email then
                { v with failedLoginAttempts := 0, lockedUntil := none }
              else v) }) := by
      simp [login, isAccountLocked, hfind, hl, hpw, hver, hreset]
    rw [hrun]
    exact ⟨rfl, reset_map_prop db.users (strLower email)⟩
  | some L =>
    have hnlt : ¬ nowMs < L := by simpa [currentlyLocked, hl] using hnl
    have hreset := resetLoginAttempts_found db email u hfind
    have hfind2 := findByEmail_after_reset db email u hfind
    have hreset2 := resetLoginAttempts_found _ email _ hfind2
    simp only [beq_iff_eq] at hreset hfind2 hreset2
    have hrun : login cfg db email pw nowMs
        = (.error (.forbidden "Please verify your email before logging in"),
           { db with users := (db.users.map (fun v =>
              if v.email == strLower email then
                { v with failedLoginAttempts := 0, lockedUntil := none }
              else v)).map (fun v =>
              if v.email == strLower email then
                { v with failedLoginAttempts := 0, lockedUntil := none }
              else v) }) := by
      simp [login, isAccountLocked, hfind, hl, hnlt, hreset, hfind2, hreset2, hpw, hver]
    rw [hrun]
    exact ⟨rfl, reset_map_prop _ (strLower email)⟩

/-- C7: `resetPassword` fails with BadRequest when no user carries the
exact token with a live expiry; otherwise it stores a fresh hash of the new
password, clears both reset fields, and a second call with the same token
fails with BadRequest (assuming the store-enforced uniqueness of the reset
token). -/
theorem reset_password_single_use (cfg : Config) (db : DB) (token newPw : String) (nowMs : Nat) :
    (findByPasswordResetToken db token nowMs = none →
      resetPassword cfg db token newPw nowMs
        = (.error (.badRequest "Invalid or expired reset token"), db))
    ∧ ∀ u, findByPasswordResetToken db token nowMs = some u →
        (∀ v ∈ db.users, v.passwordResetToken = some token → v.id = u.id) →
        ∃ db2, resetPassword cfg db token newPw nowMs
            = (.ok { message := "Password reset successfully" }, db2)
          ∧ (∀ v ∈ db2.users, v.id = u.id →
              v.passwordHash = bcryptHash newPw cfg.bcryptRounds db.nextSalt
              ∧ v.passwordResetToken = none ∧ v.passwordResetExpires = none)
          ∧ ∀ pw2 now2, (resetPassword cfg db2 token pw2 now2).1
              = .error (.badRequest "Invalid or expired reset token") := by
  constructor
  · intro h
    unfold resetPassword
    rw [h]
  · intro u hfind huniq
    have hm : u ∈ db.users := List.mem_of_find?_eq_some hfind
    have hupd : updatePassword cfg db u.id newPw
        = .ok { db with
            users := db.users.map (fun v =>
              if v.id == u.id then
                { v with passwordHash := bcryptHash newPw cfg.bcryptRounds db.nextSalt,
                         passwordResetToken := none, passwordResetExpires := none }
              else v),
            nextSalt := db.nextSalt + 1 } := by
      unfold updatePassword
      simp only [updateWhere_of_mem { db with nextSalt := db.nextSalt + 1 }
        (fun v => v.id == u.id)
        (fun v => { v with passwordHash := bcryptHash newPw cfg.bcryptRounds db.nextSalt,
                           passwordResetToken := none, passwordResetExpires := none })
        u hm (by simp)]
    refine ⟨{ db with
        users := db.users.map (fun v =>
          if v.id == u.id then
            { v with passwordHash := bcryptHash newPw cfg.bcryptRounds db.nextSalt,
                     passwordResetToken := none, passwordResetExpires := none }
          else v),
        nextSalt := db.nextSalt + 1 }, ?_, ?_, ?_⟩
    · simp only [resetPassword, hfind, hupd]
    · intro v hv hid
      rcases List.mem_map.mp hv with ⟨w, hw, rfl⟩
      by_cases h : (w.id == u.id) = true
      · simp [h]
      · rw [if_neg h] at hid
        exact absurd (by simpa using hid) (by simpa using h)
    · intro pw2 now2
      have hnone : findByPasswordResetToken
          { db with
            users := db.users.map (fun v =>
              if v.id == u.id then
                { v with passwordHash := bcryptHash newPw cfg.bcryptRounds db.nextSalt,
                         passwordResetToken := none, passwordResetExpires := none }
              else v),
            nextSalt := db.nextSalt + 1 } token now2 = none := by
        unfold findByPasswordResetToken
        rw [List.find?_eq_none]
        intro v hv
        rcases List.mem_map.mp hv with ⟨w, hw, rfl⟩
        by_cases h : (w.id == u.id) = true
        · simp [h]
        · rw [if_neg h]
          intro hp
          rw [Bool.and_eq_true] at hp
          have h1 : w.passwordResetToken = some token := by simpa using hp.1
          have h2 : w.id ≠ u.id := by simpa using h
          exact h2 (huniq w hw h1)
      unfold resetPassword
      rw [hnone]

/-- C3 (amended): `verifyEmail` returns the "already verified" success
exactly when the matched user still holds the token and is already
verified (leaving the store untouched); a fresh verification succeeds but
clears the token, so a second call with the same token fails with
BadRequest (assuming the store-enforced uniqueness of the verification
token). -/
theorem verify_email_idempotent_until_cleared (db : DB) (token : String) :
    (∀ u, findByEmailVerificationToken db token = some u → u.emailVerified = true →
        verifyEmail db token = (.ok { message := "Email already verified" }, db))
    ∧ ∀ u, findByEmailVerificationToken db token = some u → u.emailVerified = false →
        (∀ v ∈ db.users, v.emailVerificationToken = some token → v.id = u.id) →
        ∃ db2, verifyEmail db token = (.ok { message := "Email verified successfully" }, db2)
          ∧ (verifyEmail db2 token).1
              = .error (.badRequest "Invalid or expired verification token") := by
  constructor
  · intro u hfind hver
    simp [verifyEmail, hfind, hver]
  · intro u hfind hver huniq
    have hm : u ∈ db.users := List.mem_of_find?_eq_some hfind
    have hset : setEmailVerified db u.id true
        = .ok { db with users := db.users.map (fun v =>
            if v.id == u.id then
              { v with emailVerified := true, emailVerificationToken := none }
            else v) } := by
      unfold setEmailVerified
      rw [updateWhere_of_mem db _ _ u hm (by simp)]
    refine ⟨{ db with users := db.users.map (fun v =>
        if v.id == u.id then
          { v with emailVerified := true, emailVerificationToken := none }
        else v) }, ?_, ?_⟩
    · simp [verifyEmail, hfind, hver, hset]
    · have hnone : findByEmailVerificationToken
          { db with users := db.users.map (fun v =>
              if v.id == u.id then
                { v with emailVerified := true, emailVerificationToken := none }
              else v) } token = none := by
        unfold findByEmailVerificationToken
        rw [List.find?_eq_none]
        intro v hv
        rcases List.mem_map.mp hv with ⟨w, hw, rfl⟩
        by_cases h : (w.id == u.id) = true
        · simp [h]
        · rw [if_neg h]
          intro hp
          have h1 : w.emailVerificationToken = some token := by simpa using hp
          have h2 : w.id ≠ u.id := by simpa using h
          exact h2 (huniq w hw h1)
      unfold verifyEmail
      rw [hnone]

/-- C9 (counterexample): with the refresh-token lifetime configured to 60
seconds, the session row persisted by a successful login still expires a
hardcoded 30 days (2592000000 ms) after creation, not 60 seconds after. -/
theorem session_expiry_hardcoded_cex :
    ((login { testCfg with jwtRefreshExpirationSec := 60 }
        { emptyDB with users := [aliceV] } "alice@example.com" "Correct1!" 0).2).sessions.map
          Session.expiresAt = [2592000000]
    ∧ (2592000000 : Nat) ≠ 0 + 60 * 1000 := by
  decide

/-- C9 (amended): every session row persisted by `updateRefreshToken`
expires a constant 30 days after creation — a constant fixed in the code;
only the refresh JWT's embedded expiry follows the configured
refresh-token lifetime. -/
theorem session_expiry_constant (db : DB) (userId : String) (t : Jwt) (nowMs : Nat) (db2 : DB)
    (h : updateRefreshToken db userId (some t) nowMs = .ok db2) :
    (∃ s ∈ db2.sessions, s.userId = userId ∧ s.refreshToken = t
        ∧ s.expiresAt = nowMs + 30 * 24 * 60 * 60 * 1000)
    ∧ ∀ cfg email name nowSec,
        (generateTokens cfg userId email name nowSec).refreshToken.exp
          = nowSec + cfg.jwtRefreshExpirationSec := by
  constructor
  · simp only [updateRefreshToken] at h
    split at h
    · exact absurd h (by simp)
    · simp only [Except.ok.injEq] at h
      subst h
      exact ⟨{ id := db.nextSessionId, userId := userId, refreshToken := t,
               expiresAt := nowMs + 30 * 24 * 60 * 60 * 1000 }, by simp, rfl, rfl, rfl⟩
  · intro cfg email name nowSec
    rfl

/-- C8: the user object of every successful `register` response is the
four-field sanitized projection of a stored row — `SanitizedUser` carries
only `id`, `email`, `name`, `emailVerified`, and the projection is
invariant under the password hash, both tokens, the reset expiry and the
lockout fields. -/
theorem register_user_sanitized (cfg : Config) (db : DB) (dto : CreateUserData) (nowMs : Nat)
    (res : RegisterResult) (db2 : DB)
    (h : register cfg db dto nowMs = (.ok res, db2)) :
    (∃ u ∈ db2.users, res.user = sanitizeUser u)
    ∧ ∀ (u : User) ph evt prt pre fla lu,
        sanitizeUser { u with passwordHash := ph, emailVerificationToken := evt,
                              passwordResetToken := prt, passwordResetExpires := pre,
                              failedLoginAttempts := fla, lockedUntil := lu }
          = sanitizeUser u := by
  refine ⟨?_, fun u ph evt prt pre fla lu => rfl⟩
  unfold register at h
  split at h
  · simp at h
  · split at h
    · simp at h
    · rename_i user db1 hcr
      simp only [generateOpaqueToken] at h
      split at h
      · simp at h
      · rename_i db3 hset
        split at h
        · simp at h
        · rename_i db5 hupd
          rw [Prod.mk.injEq] at h
          obtain ⟨h1, h2⟩ := h
          injection h1 with h1
          have hu5 := updateRefreshToken_ok_users _ _ _ _ _ hupd
          have hu3 := setEmailVerificationToken_ok_users _ _ _ _ hset
          have hu1 := usersCreate_ok_shape _ _ _ _ _ hcr
          have husers : db2.users = (db.users ++ [user]).map
              (fun v => if v.id == user.id then
                { v with emailVerificationToken := some ("rand-" ++ toString db1.nextRandom) }
              else v) := by
            rw [← h2]
            simp only [hu5, hu3, hu1]
          refine ⟨{ user with
              emailVerificationToken := some ("rand-" ++ toString db1.nextRandom) }, ?_, ?_⟩
          · rw [husers]
            exact List.mem_map.mpr ⟨user, by simp, by simp⟩
          · rw [← h1]
            rfl

/-- C1 (amended): assuming the store-enforced uniqueness of session
refresh tokens, after a successful `refreshTokens` call whose presented
token was not signed in the very second of the call, the returned refresh
token differs from the presented one and any second call presenting the
same token fails with Forbidden (the matched session row was deleted and
the replacement carries the fresh token). -/
theorem refresh_rotation_single_use (cfg : Config) (db : DB) (userId : String) (tok : Jwt)
    (nowMs : Nat) (pair : TokenPair) (db2 : DB)
    (huniq : ∀ s1 ∈ db.sessions, ∀ s2 ∈ db.sessions, s1.refreshToken = s2.refreshToken → s1 = s2)
    (h : refreshTokens cfg db userId tok nowMs = (.ok pair, db2))
    (hiat : tok.iat ≠ nowMs / 1000) :
    pair.refreshToken ≠ tok
    ∧ ∀ now2, (refreshTokens cfg db2 userId tok now2).1
        = .error (.forbidden "Invalid refresh token") := by
  unfold refreshTokens at h
  split at h
  · simp at h
  · rename_i user hfind
    split at h
    · simp at h
    · rename_i sess hval
      have hsessMem : sess ∈ db.sessions := List.mem_of_find?_eq_some hval
      have hsessP := List.find?_some hval
      rw [Bool.and_eq_true, Bool.and_eq_true] at hsessP
      have hsessTk : sess.refreshToken = tok := by simpa using hsessP.2.1
      cases hupd : updateRefreshToken
          { db with sessions := db.sessions.filter (fun s => s.id != sess.id) }
          user.id
          (some (generateTokens cfg user.id user.email user.name (nowMs / 1000)).refreshToken)
          nowMs with
      | error e =>
        simp [hupd] at h
      | ok db5 =>
        simp only [hupd, Prod.mk.injEq, Except.ok.injEq] at h
        obtain ⟨h1, h2⟩ := h
        subst h2
        have hne : (generateTokens cfg user.id user.email user.name (nowMs / 1000)).refreshToken
            ≠ tok := by
          intro hEq
          have h3 := congrArg Jwt.iat hEq
          simp only [generateTokens, jwtSign] at h3
          exact hiat h3.symm
        have hsess := updateRefreshToken_ok_sessions _ _ _ _ _ hupd
        have husers := updateRefreshToken_ok_users _ _ _ _ _ hupd
        constructor
        · rw [← h1]
          exact hne
        · intro now2
          have hfind2 : findById db5 userId = some user := by
            unfold findById at hfind ⊢
            rw [husers]
            exact hfind
          have hval2 : validateRefreshToken db5 userId tok now2 = none := by
            unfold validateRefreshToken
            rw [List.find?_eq_none]
            intro s hs
            rw [hsess] at hs
            have hs' : s ∈ db.sessions.filter (fun s => s.id != sess.id) ++
                [{ id := db.nextSessionId, userId := user.id,
                   refreshToken := (generateTokens cfg user.id user.email user.name
                     (nowMs / 1000)).refreshToken,
                   expiresAt := nowMs + 30 * 24 * 60 * 60 * 1000 }] := hs
            rcases List.mem_append.mp hs' with hsf | hsn
            · have hmem := (List.mem_filter.mp hsf).1
              have hid := (List.mem_filter.mp hsf).2
              intro hp
              rw [Bool.and_eq_true, Bool.and_eq_true] at hp
              have htk : s.refreshToken = tok := by simpa using hp.2.1
              have hss : s = sess := huniq s hmem sess hsessMem (by rw [htk, hsessTk])
              rw [hss] at hid
              simp at hid
            · have hsn' := List.mem_singleton.mp hsn
              intro hp
              rw [Bool.and_eq_true, Bool.and_eq_true] at hp
              have htk : s.refreshToken = tok := by simpa using hp.2.1
              rw [hsn'] at htk
              exact hne htk
          simp [refreshTokens, hfind2, hval2]

/-- C2: starting from a fresh unlocked account, `N` consecutive
wrong-password logins with `N` at least the configured maximum lock the
account until `t + LOCK_TIME`, a time in the future; while that lock is in
the future, every further login fails Forbidden regardless of the
password. -/
theorem lockout_after_max_failures (cfg : Config) (db : DB) (email pw : String) (t : Nat)
    (u : User) (N : Nat)
    (hfind : findByEmail db email = some u)
    (h0 : u.failedLoginAttempts = 0)
    (hlock : u.lockedUntil = none)
    (hpw : bcryptCompare pw u.passwordHash = false)
    (hmax : 1 ≤ cfg.maxLoginAttempts)
    (hlockmin : 1 ≤ cfg.lockTimeMinutes)
    (hN : cfg.maxLoginAttempts ≤ N) :
    (∃ uN, findByEmail (wrongLogins cfg db email pw t N) email = some uN
        ∧ uN.lockedUntil = some (t + cfg.lockTimeMinutes * 60 * 1000)
        ∧ t < t + cfg.lockTimeMinutes * 60 * 1000)
    ∧ ∀ pw2 t2, t2 < t + cfg.lockTimeMinutes * 60 * 1000 →
        (login cfg (wrongLogins cfg db email pw t N) email pw2 t2).1
          = .error (.forbidden "Account is locked due to multiple failed login attempts. Please try again later.") := by
  have hstate := wrongLogins_state cfg db email pw t u hfind h0 hlock hpw hmax hlockmin N
  rw [lockStateUser, if_neg (by omega : ¬ N < cfg.maxLoginAttempts)] at hstate
  constructor
  · exact ⟨_, hstate, rfl, by omega⟩
  · intro pw2 t2 ht2
    have hrun := login_locked_unchanged cfg (wrongLogins cfg db email pw t N) email pw2 t2
      _ _ hstate rfl ht2
    rw [hrun]

/-! ## Witnesses: the hypothesised theorems evaluated at concrete inputs -/

/-- Witness for C1 (amended): a refresh at second 7 of a token signed at
second 5 rotates to a different token and the old token is rejected. -/
theorem refresh_rotation_single_use_wit :
    (generateTokens testCfg "u1" "alice@example.com" "Alice" 7).refreshToken ≠ aliceTok
    ∧ (refreshTokens testCfg aliceRotatedDB "u1" aliceTok 7000).1
        = .error (.forbidden "Invalid refresh token") :=
  ⟨(refresh_rotation_single_use testCfg aliceSessionDB "u1" aliceTok 7000
      (generateTokens testCfg "u1" "alice@example.com" "Alice" 7) aliceRotatedDB
      (by decide) (by decide) (by decide)).1,
   (refresh_rotation_single_use testCfg aliceSessionDB "u1" aliceTok 7000
      (generateTokens testCfg "u1" "alice@example.com" "Alice" 7) aliceRotatedDB
      (by decide) (by decide) (by decide)).2 7000⟩

/-- Witness for C2: with `MAX_LOGIN_ATTEMPTS = 2`, three wrong-password
logins at time 100 lock the account until 900100, and a later login with
the correct password at time 200 is rejected as locked. -/
theorem lockout_after_max_failures_wit :
    (∃ uN, findByEmail (wrongLogins { testCfg with maxLoginAttempts := 2 }
          { emptyDB with users := [aliceV] } "alice@example.com" "wrong" 100 3)
          "alice@example.com" = some uN
        ∧ uN.lockedUntil = some (100 + 15 * 60 * 1000)
        ∧ 100 < 100 + 15 * 60 * 1000)
    ∧ (login { testCfg with maxLoginAttempts := 2 }
        (wrongLogins { testCfg with maxLoginAttempts := 2 }
          { emptyDB with users := [aliceV] } "alice@example.com" "wrong" 100 3)
        "alice@example.com" "Correct1!" 200).1
        = .error (.forbidden "Account is locked due to multiple failed login attempts. Please try again later.") :=
  ⟨(lockout_after_max_failures { testCfg with maxLoginAttempts := 2 }
      { emptyDB with users := [aliceV] } "alice@example.com" "wrong" 100 aliceV 3
      (by decide) (by decide) (by decide) (by decide) (by decide) (by decide) (by decide)).1,
   (lockout_after_max_failures { testCfg with maxLoginAttempts := 2 }
      { emptyDB with users := [aliceV] } "alice@example.com" "wrong" 100 aliceV 3
      (by decide) (by decide) (by decide) (by decide) (by decide) (by decide) (by decide)).2
      "Correct1!" 200 (by decide)⟩

/-- Witness for C3 (amended): an already-verified holder of the token gets
the idempotent success; a fresh verification consumes the token and the
second call fails. -/
theorem verify_email_idempotent_until_cleared_wit :
    verifyEmail { emptyDB with users := [{ aliceU with emailVerified := true }] } "tok-v"
      = (.ok { message := "Email already verified" },
         { emptyDB with users := [{ aliceU with emailVerified := true }] })
    ∧ ∃ db2, verifyEmail { emptyDB with users := [aliceU] } "tok-v"
        = (.ok { message := "Email verified successfully" }, db2)
      ∧ (verifyEmail db2 "tok-v").1
          = .error (.badRequest "Invalid or expired verification token") :=
  ⟨(verify_email_idempotent_until_cleared
      { emptyDB with users := [{ aliceU with emailVerified := true }] } "tok-v").1
      { aliceU with emailVerified := true } (by decide) (by decide),
   (verify_email_idempotent_until_cleared
      { emptyDB with users := [aliceU] } "tok-v").2
      aliceU (by decide) (by decide) (by decide)⟩

/-- Witness for C5: login against an empty store and login with a wrong
password on `aliceV` produce the identical Unauthorized error, the former
leaving the store untouched. -/
theorem login_failure_uniform_wit :
    login testCfg emptyDB "ghost@example.com" "whatever" 0
      = (.error (.unauthorized "Invalid credentials"), emptyDB)
    ∧ ∃ db2i, incrementLoginAttempts testCfg { emptyDB with users := [aliceV] }
          "alice@example.com" 0 = .ok db2i
        ∧ login testCfg { emptyDB with users := [aliceV] } "alice@example.com" "wrong" 0
            = (.error (.unauthorized "Invalid credentials"), db2i) :=
  login_failure_uniform testCfg emptyDB "ghost@example.com" "whatever" 0
    { emptyDB with users := [aliceV] } "alice@example.com" "wrong" 0 aliceV
    (by decide) (by decide) (by decide) (by decide)

/-- Witness for C7: with no matching token the call is rejected; with a
live token the password is re-hashed, the reset fields are cleared and the
token cannot be used twice. -/
theorem reset_password_single_use_wit :
    resetPassword testCfg emptyDB "rt" "NewPass1!" 0
      = (.error (.badRequest "Invalid or expired reset token"), emptyDB)
    ∧ ∃ db2, resetPassword testCfg
        { emptyDB with users := [{ aliceV with
            passwordResetToken := some "rt", passwordResetExpires := some 5000 }] }
        "rt" "NewPass1!" 0
        = (.ok { message := "Password reset successfully" }, db2)
      ∧ (∀ v ∈ db2.users, v.id = "u1" →
          v.passwordHash = bcryptHash "NewPass1!" 10 0
          ∧ v.passwordResetToken = none ∧ v.passwordResetExpires = none)
      ∧ ∀ pw2 now2, (resetPassword testCfg db2 "rt" pw2 now2).1
          = .error (.badRequest "Invalid or expired reset token") :=
  ⟨(reset_password_single_use testCfg emptyDB "rt" "NewPass1!" 0).1 (by decide),
   (reset_password_single_use testCfg
      { emptyDB with users := [{ aliceV with
          passwordResetToken := some "rt", passwordResetExpires := some 5000 }] }
      "rt" "NewPass1!" 0).2
      { aliceV with passwordResetToken := some "rt", passwordResetExpires := some 5000 }
      (by decide) (by decide)⟩

/-- Witness for C8: the concrete registration of `dupDto` returns exactly
the four sanitized fields of the stored row. -/
theorem register_user_sanitized_wit :
    (∃ u ∈ dupRegisterDB.users, dupRegisterRes.user = sanitizeUser u)
    ∧ ∀ (u : User) ph evt prt pre fla lu,
        sanitizeUser { u with passwordHash := ph, emailVerificationToken := evt,
                              passwordResetToken := prt, passwordResetExpires := pre,
                              failedLoginAttempts := fla, lockedUntil := lu }
          = sanitizeUser u :=
  register_user_sanitized testCfg emptyDB dupDto 0 dupRegisterRes dupRegisterDB (by decide)

/-- Witness for C9 (amended): the concrete session row created at time 0
carries the hardcoded 30-day expiry while the JWT expiry follows the
configuration. -/
theorem session_expiry_constant_wit :
    (∃ s ∈ ({ emptyDB with
        sessions := [{ id := 0, userId := "u1", refreshToken := aliceTok,
                       expiresAt := 2592000000 }],
        nextSessionId := 1 } : DB).sessions,
      s.userId = "u1" ∧ s.refreshToken = aliceTok
        ∧ s.expiresAt = 0 + 30 * 24 * 60 * 60 * 1000)
    ∧ ∀ cfg email name nowSec,
        (generateTokens cfg "u1" email name nowSec).refreshToken.exp
          = nowSec + cfg.jwtRefreshExpirationSec :=
  session_expiry_constant emptyDB "u1" aliceTok 0
    { emptyDB with
      sessions := [{ id := 0, userId := "u1", refreshToken := aliceTok,
                     expiresAt := 2592000000 }],
      nextSessionId := 1 }
    (by decide)

/-- Witness for C10 (amended): a correct-password login of the unverified,
unlocked `aliceU`-like account is rejected as unverified yet resets the
lockout fields. -/
theorem login_reset_before_verify_wit :
    (login testCfg { emptyDB with users := [{ aliceV with emailVerified := false }] }
        "alice@example.com" "Correct1!" 0).1
      = .error (.forbidden "Please verify your email before logging in")
    ∧ ∀ v ∈ (login testCfg { emptyDB with users := [{ aliceV with emailVerified := false }] }
          "alice@example.com" "Correct1!" 0).2.users,
        v.email = strLower "alice@example.com" →
          v.failedLoginAttempts = 0 ∧ v.lockedUntil = none :=
  login_reset_before_verify testCfg
    { emptyDB with users := [{ aliceV with emailVerified := false }] }
    "alice@example.com" "Correct1!" 0 { aliceV with emailVerified := false }
    (by decide) (by decide) (by decide) (by decide)

end Fata
